import Mathlib

/-!
Verification development for the pymeshzork multi-transport messaging layer.

Shallow embedding of:
  * `pymeshzork/meshtastic/protocol.py`  — wire protocol (GameMessage,
    to_compact / from_compact, encode_message / decode_message, id tables);
  * `pymeshzork/meshtastic/client.py`    — transport contract
    (MeshtasticClient: sequencing, inbound handling, outgoing queue, flush);
  * `pymeshzork/meshtastic/hybrid_transport.py` — hybrid manager
    (LRUCache dedup, HybridTransport.send, _handle_message);
  * `pymeshzork/meshtastic/presence.py`  — presence roster.

Modelling conventions: wall-clock instants (`time.time()`) are integers
passed explicitly; Python dicts are association lists keeping first-lookup /
replace-in-place / append-new semantics; callback dispatch is modelled by
returning the list of values the registered callbacks would receive; raw
I/O success is an explicit boolean oracle.  Exceptions raised by decoding
are modelled by `Except ProtocolError`.
-/

namespace MeshZork

/-- JSON values as produced by `json.loads` / consumed by `json.dumps`.
The application only ever transmits null, booleans, integers, strings,
arrays and objects. -/
inductive Json where
  | null : Json
  | bool : Bool → Json
  | int : Int → Json
  | str : String → Json
  | arr : List Json → Json
  | obj : List (String × Json) → Json

/-- Python `dict.get(key)` on a JSON object: first binding wins. -/
def jsonGet (kvs : List (String × Json)) (key : String) : Option Json :=
  match kvs with
  | [] => none
  | (k, v) :: rest => if k = key then some v else jsonGet rest key

/-- Source `MessageType` enum from `protocol.py`. -/
inductive MessageType where
  | PLAYER_JOIN | PLAYER_LEAVE | HEARTBEAT
  | PLAYER_MOVE | PLAYER_ACTION
  | ROOM_UPDATE | OBJECT_UPDATE | SYNC_REQUEST | SYNC_RESPONSE
  | CHAT | TEAM_CHAT
deriving DecidableEq

/-- The two-letter wire tag of each `MessageType` (its `.value`). -/
def MessageType.value : MessageType → String
  | .PLAYER_JOIN => "PJ"
  | .PLAYER_LEAVE => "PL"
  | .HEARTBEAT => "HB"
  | .PLAYER_MOVE => "PM"
  | .PLAYER_ACTION => "PA"
  | .ROOM_UPDATE => "RU"
  | .OBJECT_UPDATE => "OU"
  | .SYNC_REQUEST => "SY"
  | .SYNC_RESPONSE => "SR"
  | .CHAT => "CH"
  | .TEAM_CHAT => "TC"

/-- Source `MessageType(tag)` — the enum constructor lookup; `none` models the
`ValueError` Python raises on an unrecognized tag. -/
def MessageType.ofTag : String → Option MessageType
  | "PJ" => some .PLAYER_JOIN
  | "PL" => some .PLAYER_LEAVE
  | "HB" => some .HEARTBEAT
  | "PM" => some .PLAYER_MOVE
  | "PA" => some .PLAYER_ACTION
  | "RU" => some .ROOM_UPDATE
  | "OU" => some .OBJECT_UPDATE
  | "SY" => some .SYNC_REQUEST
  | "SR" => some .SYNC_RESPONSE
  | "CH" => some .CHAT
  | "TC" => some .TEAM_CHAT
  | _ => none

/-- Source `PROTOCOL_VERSION` constant. -/
def PROTOCOL_VERSION : Int := 1

/-- Source `GameMessage` dataclass.  `data` is the free-form payload dict,
kept as a JSON value; `timestamp` is a clock reading. -/
structure GameMessage where
  type : MessageType
  player_id : String
  data : Json
  sequence : Int
  timestamp : Int

/-- Source `GameMessage.to_compact`: the compact wire dict.  `player_id[:6]`
is the only truncation applied here. -/
def GameMessage.to_compact (m : GameMessage) : List (String × Json) :=
  [ ("v", .int PROTOCOL_VERSION),
    ("t", .str m.type.value),
    ("p", .str (m.player_id.take 6)),
    ("s", .int m.sequence),
    ("d", m.data) ]

/-- Decode error; the Python code raises builtin exceptions
(`KeyError`, `ValueError`, `json.JSONDecodeError`, `TypeError`) — the
spec groups all of them under the name `ProtocolError`. -/
inductive ProtocolError where
  | malformed
deriving DecidableEq

/-- Integer read of an optional JSON field, `data.get(key, 0)` style:
a missing or non-integer value yields the default. -/
def jsonGetIntD (kvs : List (String × Json)) (key : String) (d : Int) : Int :=
  match jsonGet kvs key with
  | some (.int n) => n
  | _ => d

/-- Source `GameMessage.from_compact`: parse the compact dict.  Faithful error
points: missing `"t"` (KeyError), unrecognized tag (ValueError on the
enum constructor), missing `"p"` (KeyError).  `"s"` defaults to `0` and
`"d"` to the empty dict.  The received message's `timestamp` is set to
the current clock (`time.time()`), passed here as `now`.  (A non-string
`"t"` fails the enum constructor in Python, hence is an error; a
non-string `"p"` is narrowed to an error in this typed model.) -/
def GameMessage.from_compact (kvs : List (String × Json)) (now : Int) :
    Except ProtocolError GameMessage :=
  match jsonGet kvs "t" with
  | some (.str tag) =>
    match MessageType.ofTag tag with
    | some ty =>
      match jsonGet kvs "p" with
      | some (.str pid) =>
        .ok { type := ty
              player_id := pid
              sequence := jsonGetIntD kvs "s" 0
              data := (jsonGet kvs "d").getD (.obj [])
              timestamp := now }
      | _ => .error .malformed
    | none => .error .malformed
  | _ => .error .malformed

/-- Source `encode_message`: `json.dumps(msg.to_compact())`.  The JSON text
layer is a bijection on the values this protocol emits, so the model
keeps the compact dict itself as the wire form. -/
def encode_message (m : GameMessage) : Json :=
  .obj m.to_compact

/-- Source `decode_message`: `from_compact(json.loads(data))`.  The input is
the parse result of the wire text: `none` models text that is not valid
JSON, and a non-object top level fails the dict accesses in Python. -/
def decode_message (input : Option Json) (now : Int) :
    Except ProtocolError GameMessage :=
  match input with
  | some (.obj kvs) => GameMessage.from_compact kvs now
  | _ => .error .malformed

/-! ## Transport contract (`client.py`) -/

/-- Source `ConnectionState` enum. -/
inductive ConnectionState where
  | DISCONNECTED | CONNECTING | CONNECTED | RECONNECTING | ERROR
deriving DecidableEq

/-- Source `QueuedMessage` dataclass: a message queued for sending. -/
structure QueuedMessage where
  message : GameMessage
  attempts : Nat
  queued_at : Int

/-- Mutable state of a `MeshtasticClient` instance.  `seen_sequences`
is the per-sender set of previously seen sequence numbers (modelled as
a list without duplicates); `sent` records every successful
`_send_raw` payload for observability. -/
structure MeshtasticClient where
  player_id : String
  state : ConnectionState
  sequence : Int
  seen_sequences : List (String × List Int)
  outgoing_queue : List QueuedMessage
  sent : List Json

/-- Source `_next_sequence`: increment and return the per-instance counter. -/
def MeshtasticClient.next_sequence (c : MeshtasticClient) :
    Int × MeshtasticClient :=
  (c.sequence + 1, { c with sequence := c.sequence + 1 })

/-- Source `collections.deque(maxlen=n)` append: when the deque is full the
oldest (front) entries are discarded to keep at most `n`. -/
def dequeAppend (maxlen : Nat) (q : List QueuedMessage)
    (x : QueuedMessage) : List QueuedMessage :=
  let q2 := q ++ [x]
  if maxlen < q2.length then q2.drop (q2.length - maxlen) else q2

/-- Source `_queue_message`: append to the outgoing deque (capacity 100). -/
def MeshtasticClient.queue_message (c : MeshtasticClient)
    (msg : GameMessage) (now : Int) : MeshtasticClient :=
  { c with outgoing_queue :=
      dequeAppend 100 c.outgoing_queue ⟨msg, 0, now⟩ }

/-- Source `MeshtasticClient.send`: assigns the next sequence number into the
message, then transmits immediately when Connected (success governed by
the raw-I/O oracle `ok`); on raw failure or when not Connected the
message is queued and `false` returned. -/
def MeshtasticClient.send (c : MeshtasticClient) (msg : GameMessage)
    (ok : Bool) (now : Int) : MeshtasticClient × Bool :=
  let seq := c.sequence + 1
  let msg2 := { msg with sequence := seq }
  let c2 := { c with sequence := seq }
  if c2.state = ConnectionState.CONNECTED then
    if ok then
      ({ c2 with sent := c2.sent ++ [encode_message msg2] }, true)
    else
      (c2.queue_message msg2 now, false)
  else
    (c2.queue_message msg2 now, false)

/-- One pass of the `_flush_queue` while-loop.  The oracle `f n` gives
the outcome of the `n`-th raw transmission attempted during this call.
Returns `(remaining queue, successfully sent entries, dropped entries)`.
A raw failure increments the head's attempt counter, drops it once the
counter reaches 3, and breaks out of the loop. -/
def flushLoop : List QueuedMessage → (Nat → Bool) →
    List QueuedMessage × List QueuedMessage × List QueuedMessage
  | [], _ => ([], [], [])
  | m :: rest, f =>
    if f 0 then
      let r := flushLoop rest (fun n => f (n + 1))
      (r.1, m :: r.2.1, r.2.2)
    else
      let m2 : QueuedMessage := { m with attempts := m.attempts + 1 }
      if 3 ≤ m2.attempts then (rest, [], [m2])
      else (m2 :: rest, [], [])

/-- Source `_flush_queue`: no-op unless Connected, else run the flush loop on
the outgoing queue. -/
def MeshtasticClient.flush_queue (c : MeshtasticClient)
    (f : Nat → Bool) :
    MeshtasticClient × List QueuedMessage × List QueuedMessage :=
  if c.state = ConnectionState.CONNECTED then
    let r := flushLoop c.outgoing_queue f
    ({ c with outgoing_queue := r.1,
              sent := c.sent ++
                r.2.1.map (fun q => encode_message q.message) },
     r.2.1, r.2.2)
  else
    (c, [], [])

/-- Membership in a modelled Python set. -/
def setMem (s : List Int) (n : Int) : Bool := s.contains n

/-- Association-list read, Python `dict.get`. -/
def assocGet {α β : Type} [DecidableEq α]
    (l : List (α × β)) (k : α) : Option β :=
  match l with
  | [] => none
  | (k2, v) :: rest => if k2 = k then some v else assocGet rest k

/-- Association-list write, Python `dict[k] = v`: replace in place when
the key exists, append otherwise (insertion order preserved). -/
def assocPut {α β : Type} [DecidableEq α]
    (l : List (α × β)) (k : α) (v : β) : List (α × β) :=
  match l with
  | [] => [(k, v)]
  | (k2, w) :: rest =>
    if k2 = k then (k2, v) :: rest else (k2, w) :: assocPut rest k v

/-- Source `_handle_incoming`: decode; drop own messages; deduplicate on the
per-sender seen-sequence set (cleared once it exceeds 1000 entries);
dispatch to message callbacks.  Returns the new state and the list of
messages delivered to callbacks.  Any decode error is swallowed. -/
def MeshtasticClient.handle_incoming (c : MeshtasticClient)
    (input : Option Json) (now : Int) :
    MeshtasticClient × List GameMessage :=
  match decode_message input now with
  | .error _ => (c, [])
  | .ok msg =>
    if msg.player_id = c.player_id then (c, [])
    else
      let seen := (assocGet c.seen_sequences msg.player_id).getD []
      if setMem seen msg.sequence then (c, [])
      else
        let seen2 := seen ++ [msg.sequence]
        let seen3 := if 1000 < seen2.length then [] else seen2
        ({ c with seen_sequences :=
             assocPut c.seen_sequences msg.player_id seen3 },
         [msg])

/-! ## Hybrid transport manager (`hybrid_transport.py`) -/

/-- Source `TransportType` enum. -/
inductive TransportType where
  | MESHTASTIC_NATIVE | MESHTASTIC_SERIAL | MQTT
deriving DecidableEq

/-- Source `LRUCache`: ordered dict key → insertion time, front = least
recently used. -/
structure LRUCache where
  maxsize : Nat
  ttl : Int
  cache : List (String × Int)

/-- Remove the binding of `key` (`del self._cache[key]`). -/
def lruErase (l : List (String × Int)) (key : String) :
    List (String × Int) :=
  match l with
  | [] => []
  | (k, t) :: rest =>
    if k = key then rest else (k, t) :: lruErase rest key

/-- Source `OrderedDict.move_to_end(key)`: move the binding to the back,
keeping its stored time. -/
def lruMoveToEnd (l : List (String × Int)) (key : String) :
    List (String × Int) :=
  match assocGet l key with
  | none => l
  | some t => lruErase l key ++ [(key, t)]

/-- Source `LRUCache.__contains__` at clock `now`: absent → false; present but
older than `ttl` → delete the entry and return false; otherwise move to
MRU position and return true.  Returns the updated cache alongside. -/
def LRUCache.containsCheck (c : LRUCache) (key : String) (now : Int) :
    Bool × LRUCache :=
  match assocGet c.cache key with
  | none => (false, c)
  | some t =>
    if c.ttl < now - t then
      (false, { c with cache := lruErase c.cache key })
    else
      (true, { c with cache := lruMoveToEnd c.cache key })

/-- Drop from the front while over capacity
(`while len > maxsize: popitem(last=False)`). -/
def lruEvict (maxsize : Nat) (l : List (String × Int)) :
    List (String × Int) :=
  if maxsize < l.length then l.drop (l.length - maxsize) else l

/-- Source `LRUCache.add` at clock `now`: refresh recency if present (stored
time kept), else insert at the back and evict the oldest entries while
over capacity. -/
def LRUCache.add (c : LRUCache) (key : String) (now : Int) : LRUCache :=
  match assocGet c.cache key with
  | some _ => { c with cache := lruMoveToEnd c.cache key }
  | none => { c with cache := lruEvict c.maxsize (c.cache ++ [(key, now)]) }

/-- Observable behavior of one owned transport client, as
`HybridTransport.send` sees it: its connection state and the boolean
its `send` would return. -/
structure TClient where
  connected : Bool
  sendOk : Bool

/-- State of a `HybridTransport`: owned clients, priority order,
elected primary, dedup cache and duplicate counter. -/
structure HybridTransport where
  transport_priority : List TransportType
  transports : List (TransportType × TClient)
  primary : Option TransportType
  enable_fallback : Bool
  seen_messages : LRUCache
  duplicate_count : Nat

/-- The fallback walk of `HybridTransport.send`: first transport in
priority order, other than the primary, whose client exists and is
connected; its `send` result is returned immediately. -/
def fallbackWalk (ts : List (TransportType × TClient))
    (p : TransportType) : List TransportType →
    Bool × Option TransportType
  | [] => (false, none)
  | tt :: rest =>
    if tt = p then fallbackWalk ts p rest
    else
      match assocGet ts tt with
      | some cl =>
        if cl.connected then (cl.sendOk, some tt)
        else fallbackWalk ts p rest
      | none => fallbackWalk ts p rest

/-- Source `HybridTransport.send`: no primary → false; primary's client
connected → return its result (no fallback on a failing return);
otherwise, when fallback is enabled, return the result of the first
connected non-primary transport in priority order.  Also reports which
transport's `send` was invoked. -/
def HybridTransport.send (h : HybridTransport) :
    Bool × Option TransportType :=
  match h.primary with
  | none => (false, none)
  | some p =>
    match assocGet h.transports p with
    | some cl =>
      if cl.connected then (cl.sendOk, some p)
      else if h.enable_fallback then
        fallbackWalk h.transports p h.transport_priority
      else (false, none)
    | none =>
      if h.enable_fallback then
        fallbackWalk h.transports p h.transport_priority
      else (false, none)

/-- Source `HybridTransport._handle_message`: dedup gate keyed by
`player_id:sequence`.  A cache hit increments the duplicate counter and
discards the message; a miss records the key and dispatches to the
message callbacks.  Returns the messages dispatched.  The delivering
transport (`source`) plays no role beyond logging. -/
def HybridTransport.handle_message (h : HybridTransport)
    (msg : GameMessage) (_source : TransportType) (now : Int) :
    HybridTransport × List GameMessage :=
  let msg_id := msg.player_id ++ ":" ++ toString msg.sequence
  let res := h.seen_messages.containsCheck msg_id now
  if res.1 then
    ({ h with seen_messages := res.2,
              duplicate_count := h.duplicate_count + 1 }, [])
  else
    ({ h with seen_messages := res.2.add msg_id now }, [msg])

/-! ## Id tables (`protocol.py`) -/

/-- Source `ROOM_IDS` static table. -/
def ROOM_IDS : List (String × Int) :=
  [ ("whous", 1), ("lroom", 2), ("kitch", 3), ("attic", 4), ("cella", 5),
    ("fore1", 10), ("fore2", 11), ("fore3", 12), ("clear", 13),
    ("path1", 14), ("glade", 15), ("cany1", 16), ("cany2", 17),
    ("mtrol", 20), ("studi", 21), ("mgall", 22), ("maint", 23),
    ("dam", 24), ("damlo", 25), ("reser", 26), ("strea", 27),
    ("rroom", 28), ("droom", 29), ("torch", 30),
    ("maze1", 40), ("maze2", 41), ("maze3", 42), ("maze4", 43),
    ("maze5", 44), ("mazed", 45),
    ("templ", 50), ("egypt", 51), ("altar", 52), ("cave1", 53),
    ("entrc", 54), ("llair", 55),
    ("coal1", 60), ("coal2", 61), ("coal3", 62), ("coal4", 63),
    ("mmach", 64), ("msafe", 65),
    ("vlbot", 70), ("vlair", 71), ("vair1", 72), ("vair2", 73),
    ("bkent", 80), ("bktel", 81), ("bkvau", 82), ("bksdp", 83),
    ("carou", 90), ("lld2", 91), ("riddl", 92), ("cyclo", 93),
    ("treas", 94), ("mirro", 95) ]

/-- Source `OBJECT_IDS` static table. -/
def OBJECT_IDS : List (String × Int) :=
  [ ("lamp", 1), ("candl", 2), ("match", 3), ("torch", 4),
    ("sword", 10), ("knife", 11), ("axe", 12), ("stilet", 13),
    ("egg", 20), ("jewel", 21), ("coins", 22), ("bar", 23),
    ("diamo", 24), ("trunk", 25), ("troph", 26), ("paint", 27),
    ("chalc", 28), ("sceptr", 29), ("bauble", 30), ("pot", 31),
    ("emera", 32), ("scarab", 33), ("figur", 34), ("gold", 35),
    ("mailb", 40), ("bag", 41), ("chest", 42), ("case", 43),
    ("boat", 44), ("basket", 45), ("safe", 46), ("buoy", 47),
    ("leafl", 50), ("key", 51), ("keys", 52), ("rope", 53),
    ("food", 54), ("bottl", 55), ("water", 56), ("garli", 57),
    ("coal", 58), ("scrwdr", 59), ("wrench", 60), ("pump", 61),
    ("label", 62), ("guide", 63), ("news", 64), ("map", 65),
    ("stick", 66), ("brick", 67), ("skull", 68), ("bell", 69),
    ("book", 70), ("candls", 71),
    ("door", 80), ("grate", 81), ("trapdoor", 82), ("rug", 83),
    ("pile", 84), ("butto", 85),
    ("thief", 90), ("troll", 91), ("cyclo", 92), ("ghost", 93),
    ("vampi", 94) ]

/-- Source `ROOM_NAMES.get(n)` — the reverse dict (last binding wins, as in
the Python dict comprehension). -/
def ROOM_NAMES_get (n : Int) : Option String :=
  (ROOM_IDS.reverse.find? (fun kv => kv.2 == n)).map (fun kv => kv.1)

/-- Source `OBJECT_NAMES.get(n)` — the reverse dict. -/
def OBJECT_NAMES_get (n : Int) : Option String :=
  (OBJECT_IDS.reverse.find? (fun kv => kv.2 == n)).map (fun kv => kv.1)

/-! ## Presence manager (`presence.py`) -/

/-- Source `PlayerInfo` dataclass. -/
structure PlayerInfo where
  player_id : String
  name : String
  room_id : String
  last_seen : Int
  score : Int := 0
  team_id : Option String := none

/-- State of a `PresenceManager`: the local id and the roster dict. -/
structure PresenceManager where
  local_player_id : String
  players : List (String × PlayerInfo)

/-- One callback invocation the presence manager would make. -/
inductive PresenceEvent where
  | join (p : PlayerInfo)
  | leave (p : PlayerInfo)
  | move (p : PlayerInfo) (from_room to_room : String)
  | action (p : PlayerInfo) (verb : String) (obj : Option String)
  | chat (p : PlayerInfo) (message : String) (is_team : Bool)

/-- Source `msg.data.get(key, default)` for an integer field.  The payload is
a dict in every message this layer produces; a non-dict payload is
narrowed to the defaults here. -/
def dataGetInt (d : Json) (key : String) (dflt : Int) : Int :=
  match d with
  | .obj kvs => jsonGetIntD kvs key dflt
  | _ => dflt

/-- Source `msg.data.get(key, default)` for a string field (non-string values
narrowed to the default). -/
def dataGetStr (d : Json) (key : String) (dflt : String) : String :=
  match d with
  | .obj kvs =>
    match jsonGet kvs key with
    | some (.str s) => s
    | _ => dflt
  | _ => dflt

/-- Source `msg.data.get("o")` in `_handle_action`: an integer is translated
through `OBJECT_NAMES`, a string is kept as-is, anything else is
absent. -/
def dataGetObj (d : Json) : Option String :=
  match d with
  | .obj kvs =>
    match jsonGet kvs "o" with
    | some (.int n) => OBJECT_NAMES_get n
    | some (.str s) => some s
    | _ => none
  | _ => none

/-- Remove a roster binding (`dict.pop`). -/
def assocRemove {α β : Type} [DecidableEq α]
    (l : List (α × β)) (k : α) : List (α × β) :=
  match l with
  | [] => []
  | (k2, v) :: rest =>
    if k2 = k then rest else (k2, v) :: assocRemove rest k

/-- Source `_handle_join`. -/
def PresenceManager.handle_join (pm : PresenceManager)
    (msg : GameMessage) (now : Int) :
    PresenceManager × List PresenceEvent :=
  let room_id := (ROOM_NAMES_get (dataGetInt msg.data "r" 0)).getD "whous"
  let name := dataGetStr msg.data "n" msg.player_id
  let is_new := (assocGet pm.players msg.player_id).isNone
  let player : PlayerInfo :=
    { player_id := msg.player_id, name := name, room_id := room_id,
      last_seen := now }
  let pm2 := { pm with players := assocPut pm.players msg.player_id player }
  (pm2, if is_new then [.join player] else [])

/-- Source `_handle_leave`. -/
def PresenceManager.handle_leave (pm : PresenceManager)
    (msg : GameMessage) :
    PresenceManager × List PresenceEvent :=
  match assocGet pm.players msg.player_id with
  | some player =>
    ({ pm with players := assocRemove pm.players msg.player_id },
     [.leave player])
  | none => (pm, [])

/-- Source `_handle_move`: a known sender's entry gets the new room and a
fresh `last_seen`; an unknown sender gets a synthesized entry whose
display name is the player id.  The move callback always fires. -/
def PresenceManager.handle_move (pm : PresenceManager)
    (msg : GameMessage) (now : Int) :
    PresenceManager × List PresenceEvent :=
  let from_room := (ROOM_NAMES_get (dataGetInt msg.data "f" 0)).getD ""
  let to_room := (ROOM_NAMES_get (dataGetInt msg.data "r" 0)).getD "whous"
  match assocGet pm.players msg.player_id with
  | some player =>
    let player2 := { player with room_id := to_room, last_seen := now }
    ({ pm with players := assocPut pm.players msg.player_id player2 },
     [.move player2 from_room to_room])
  | none =>
    let player : PlayerInfo :=
      { player_id := msg.player_id, name := msg.player_id,
        room_id := to_room, last_seen := now }
    ({ pm with players := assocPut pm.players msg.player_id player },
     [.move player from_room to_room])

/-- Source `_handle_heartbeat`: a known sender's room and `last_seen` are
refreshed; an unknown sender is ignored (no entry, no callback). -/
def PresenceManager.handle_heartbeat (pm : PresenceManager)
    (msg : GameMessage) (now : Int) :
    PresenceManager × List PresenceEvent :=
  let room_id := (ROOM_NAMES_get (dataGetInt msg.data "r" 0)).getD "whous"
  match assocGet pm.players msg.player_id with
  | some player =>
    let player2 := { player with room_id := room_id, last_seen := now }
    ({ pm with players := assocPut pm.players msg.player_id player2 }, [])
  | none => (pm, [])

/-- Source `_handle_action`: a known sender's `last_seen` is refreshed and the
action callback fires; an unknown sender is ignored entirely. -/
def PresenceManager.handle_action (pm : PresenceManager)
    (msg : GameMessage) (now : Int) :
    PresenceManager × List PresenceEvent :=
  let verb := dataGetStr msg.data "v" ""
  let obj := dataGetObj msg.data
  match assocGet pm.players msg.player_id with
  | some player =>
    let player2 := { player with last_seen := now }
    ({ pm with players := assocPut pm.players msg.player_id player2 },
     [.action player2 verb obj])
  | none => (pm, [])

/-- Source `_handle_chat`: a known sender's `last_seen` is refreshed; an
unknown sender gets a temporary `PlayerInfo` that is handed to the chat
callback but never stored in the roster.  The chat callback always
fires. -/
def PresenceManager.handle_chat (pm : PresenceManager)
    (msg : GameMessage) (now : Int) :
    PresenceManager × List PresenceEvent :=
  let message := dataGetStr msg.data "m" ""
  let is_team := msg.type = MessageType.TEAM_CHAT
  match assocGet pm.players msg.player_id with
  | some player =>
    let player2 := { player with last_seen := now }
    ({ pm with players := assocPut pm.players msg.player_id player2 },
     [.chat player2 message is_team])
  | none =>
    let player : PlayerInfo :=
      { player_id := msg.player_id, name := msg.player_id,
        room_id := (ROOM_NAMES_get (dataGetInt msg.data "r" 0)).getD "",
        last_seen := now }
    (pm, [.chat player message is_team])

/-- Source `PresenceManager.handle_message`: drop own messages, then dispatch
on the message type; types with no presence meaning are ignored. -/
def PresenceManager.handle_message (pm : PresenceManager)
    (msg : GameMessage) (now : Int) :
    PresenceManager × List PresenceEvent :=
  if msg.player_id = pm.local_player_id then (pm, [])
  else
    match msg.type with
    | .PLAYER_JOIN => pm.handle_join msg now
    | .PLAYER_LEAVE => pm.handle_leave msg
    | .PLAYER_MOVE => pm.handle_move msg now
    | .HEARTBEAT => pm.handle_heartbeat msg now
    | .PLAYER_ACTION => pm.handle_action msg now
    | .CHAT => pm.handle_chat msg now
    | .TEAM_CHAT => pm.handle_chat msg now
    | _ => (pm, [])

/-! ## Derived forms and concrete instances used in the theorems -/

/-- The last `n` elements of a list. -/
def lastN {α : Type} (n : Nat) (xs : List α) : List α :=
  xs.drop (xs.length - n)

/-- Enqueue a whole list of messages through `_queue_message`
(the disconnected-producer scenario). -/
def queueMany (c : MeshtasticClient) (l : List GameMessage)
    (now : Int) : MeshtasticClient :=
  l.foldl (fun acc m => acc.queue_message m now) c

/-- A disconnected client with an empty queue, used as a concrete
witness state. -/
def witClient : MeshtasticClient :=
  { player_id := "abc123", state := .DISCONNECTED, sequence := 0,
    seen_sequences := [], outgoing_queue := [], sent := [] }

/-- 105 distinct chat messages, used as a concrete witness input. -/
def witMessages : List GameMessage :=
  (List.range 105).map (fun i =>
    { type := .CHAT, player_id := "p", data := .obj [],
      sequence := (i : Int), timestamp := 0 })

/-- The claim's notion of malformed decode input: text that is not
valid JSON, a non-object top level, or a `"t"` field that is missing,
not a string, or not a recognized kind tag. -/
def MalformedInput (inp : Option Json) : Prop :=
  match inp with
  | some (.obj kvs) =>
    match jsonGet kvs "t" with
    | some (.str tag) => MessageType.ofTag tag = none
    | some _ => True
    | none => True
  | _ => True

/-- A presence manager with an empty roster for local id "abc123". -/
def witPresence : PresenceManager :=
  { local_player_id := "abc123", players := [] }

/-- A fresh dedup cache at the default configuration. -/
def witCache : LRUCache := { maxsize := 1000, ttl := 300, cache := [] }

/-- A hybrid manager with a fresh dedup cache, used as a concrete
witness state. -/
def witHybrid : HybridTransport :=
  { transport_priority := [.MESHTASTIC_NATIVE, .MESHTASTIC_SERIAL, .MQTT],
    transports := [], primary := none, enable_fallback := true,
    seen_messages := witCache, duplicate_count := 0 }

/-- A concrete move message. -/
def witMsg : GameMessage :=
  { type := .PLAYER_MOVE, player_id := "abc123",
    data := .obj [("f", .int 1), ("r", .int 2)],
    sequence := 42, timestamp := 0 }

/-- A hybrid manager whose dedup cache holds `witMsg`'s key inserted at
clock 0, used to witness TTL expiry at clock 1000. -/
def witHybridStale : HybridTransport :=
  { witHybrid with seen_messages :=
      { witCache with cache := [("abc123:42", 0)] } }

/-- Hybrid manager with primary NATIVE connected-but-failing and MQTT
connected-and-succeeding: the counterexample state for the send-walk
claim. -/
def witHybridAB : HybridTransport :=
  { transport_priority := [.MESHTASTIC_NATIVE, .MESHTASTIC_SERIAL, .MQTT],
    transports :=
      [(.MESHTASTIC_NATIVE, { connected := true, sendOk := false }),
       (.MQTT, { connected := true, sendOk := true })],
    primary := some .MESHTASTIC_NATIVE,
    enable_fallback := true,
    seen_messages := witCache, duplicate_count := 0 }

/-- Hybrid manager in the failover scenario: primary A
(MESHTASTIC_NATIVE, priority 0) has dropped its connection, B
(MESHTASTIC_SERIAL, priority 1) is connected and succeeding. -/
def witHybridFailover : HybridTransport :=
  { transport_priority := [.MESHTASTIC_NATIVE, .MESHTASTIC_SERIAL, .MQTT],
    transports :=
      [(.MESHTASTIC_NATIVE, { connected := false, sendOk := false }),
       (.MESHTASTIC_SERIAL, { connected := true, sendOk := true })],
    primary := some .MESHTASTIC_NATIVE,
    enable_fallback := true,
    seen_messages := witCache, duplicate_count := 0 }

/-- A heartbeat from a sender unknown to `witPresence`. -/
def witHB : GameMessage :=
  { type := .HEARTBEAT, player_id := "zzz999",
    data := .obj [("r", .int 1)], sequence := 1, timestamp := 0 }

/-- A move from a sender unknown to `witPresence`. -/
def witMove : GameMessage :=
  { type := .PLAYER_MOVE, player_id := "zzz999",
    data := .obj [("f", .int 1), ("r", .int 2)], sequence := 2,
    timestamp := 0 }

/-- A connected client holding one queued message with two failed
attempts already recorded. -/
def witClientFlush : MeshtasticClient :=
  { player_id := "abc123", state := .CONNECTED, sequence := 3,
    seen_sequences := [],
    outgoing_queue := [⟨witMsg, 2, 0⟩, ⟨witHB, 0, 1⟩], sent := [] }

/-! ## Theorems -/

/-- The enum round-trip: parsing the wire tag of a message type yields
that type. -/
theorem MessageType.ofTag_value (t : MessageType) :
    MessageType.ofTag t.value = some t := by
  cases t <;> rfl

/-- C1 (counterexample): the claim that `decode_message (encode_message m)`
reproduces `m` in all fields except the declared truncations is false:
`timestamp` is not carried on the wire, and decoding stamps the message
with the decode-time clock.  Concretely, a chat message with timestamp 5
decoded at clock 9 comes back with timestamp 9. -/
theorem C1_counterexample_timestamp_not_reproduced :
    decode_message (some (encode_message
        { type := .CHAT, player_id := "player", data := .obj [],
          sequence := 7, timestamp := 5 })) 9 =
      .ok { type := .CHAT, player_id := "player", data := .obj [],
            sequence := 7, timestamp := 9 } ∧
    (9 : Int) ≠ 5 :=
  ⟨rfl, by decide⟩

/-- C1 (amended): for every message `m`, `decode_message (encode_message m)`
succeeds and reproduces `type`, `sequence` and `data` exactly and
`player_id` up to the 6-character truncation applied by `to_compact`;
`timestamp` is not transmitted and is replaced by the decode-time
clock.  (Display-name and chat-text truncation happen in the message
factory functions at creation time, so those fields sit inside `data`
and round-trip unchanged here.) -/
theorem C1_roundtrip_amended (m : GameMessage) (now : Int) :
    decode_message (some (encode_message m)) now =
      .ok { type := m.type, player_id := m.player_id.take 6,
            data := m.data, sequence := m.sequence, timestamp := now } := by
  obtain ⟨ty, pid, d, sq, ts⟩ := m
  cases ty <;> rfl

/-- C5: `MeshtasticClient.send` overwrites the message's sequence with
the freshly incremented per-instance counter (whatever the caller
supplied); it returns `true` exactly when the client is Connected and
the raw transmission succeeds, in which case the encoded message goes
out; otherwise the (re-sequenced) message is appended to the outgoing
queue and `false` is returned.  A second send from the resulting state
assigns the next counter value, so successive sends carry strictly
increasing sequence numbers. -/
theorem C5_send_sequences_and_queueing (c : MeshtasticClient)
    (msg : GameMessage) (ok : Bool) (now : Int) :
    ((c.send msg ok now).2 = true ↔
        c.state = ConnectionState.CONNECTED ∧ ok = true) ∧
    (c.send msg ok now).1.sequence = c.sequence + 1 ∧
    (c.send msg ok now).1.sent =
      (if c.state = ConnectionState.CONNECTED ∧ ok = true then
        c.sent ++ [encode_message { msg with sequence := c.sequence + 1 }]
      else c.sent) ∧
    (c.send msg ok now).1.outgoing_queue =
      (if c.state = ConnectionState.CONNECTED ∧ ok = true then
        c.outgoing_queue
      else dequeAppend 100 c.outgoing_queue
        ⟨{ msg with sequence := c.sequence + 1 }, 0, now⟩) ∧
    (∀ msg2 ok2 now2,
      ((c.send msg ok now).1.send msg2 ok2 now2).1.sequence =
        c.sequence + 2) := by
  have h5 : ∀ msg2 ok2 now2,
      ((c.send msg ok now).1.send msg2 ok2 now2).1.sequence =
        c.sequence + 2 := by
    intro msg2 ok2 now2
    by_cases hs : c.state = ConnectionState.CONNECTED <;>
      cases ok <;> cases ok2 <;>
      simp [MeshtasticClient.send, MeshtasticClient.queue_message, hs] <;>
      omega
  refine ⟨?_, ?_, ?_, ?_, h5⟩ <;>
    by_cases hs : c.state = ConnectionState.CONNECTED <;>
    cases ok <;>
    simp [MeshtasticClient.send, MeshtasticClient.queue_message, hs]

/-- A deque append is exactly "keep the last 100". -/
theorem dequeAppend_eq_lastN (n : Nat) (q : List QueuedMessage)
    (x : QueuedMessage) : dequeAppend n q x = lastN n (q ++ [x]) := by
  unfold dequeAppend lastN
  by_cases h : n < (q ++ [x]).length
  · rw [if_pos h]
  · rw [if_neg h]
    have h0 : (q ++ [x]).length - n = 0 := by
      simp only [not_lt] at h
      omega
    rw [h0, List.drop_zero]

/-- The list `lastN n xs` keeps at most `n` elements. -/
theorem lastN_length_le {α : Type} (n : Nat) (xs : List α) :
    (lastN n xs).length ≤ n := by
  simp [lastN]
  omega

/-- Trimming to the last `n` before appending more does not change the
last `n` of the whole. -/
theorem lastN_lastN_append {α : Type} (n : Nat) (xs l : List α) :
    lastN n (lastN n xs ++ l) = lastN n (xs ++ l) := by
  unfold lastN
  rw [List.drop_append_eq_append_drop, List.drop_append_eq_append_drop,
    List.drop_drop]
  congr 1
  · congr 1
    simp
    omega
  · congr 1
    simp
    omega

/-- Folding deque appends from a not-overfull queue keeps exactly the
last 100 entries. -/
theorem foldl_dequeAppend_eq_lastN (l q : List QueuedMessage)
    (h : q.length ≤ 100) :
    l.foldl (dequeAppend 100) q = lastN 100 (q ++ l) := by
  induction l generalizing q with
  | nil =>
    have h0 : q.length - 100 = 0 := by omega
    simp [lastN, h0]
  | cons x rest ih =>
    rw [List.foldl_cons, dequeAppend_eq_lastN,
      ih _ (lastN_length_le 100 (q ++ [x])), lastN_lastN_append]
    simp

/-- Folding `queueMany` only folds `dequeAppend` over the outgoing queue. -/
theorem queueMany_outgoing (c : MeshtasticClient)
    (l : List GameMessage) (now : Int) :
    (queueMany c l now).outgoing_queue =
      (l.map (fun m => ⟨m, 0, now⟩)).foldl (dequeAppend 100)
        c.outgoing_queue := by
  induction l generalizing c with
  | nil => rfl
  | cons x rest ih =>
    simpa [queueMany, MeshtasticClient.queue_message] using
      ih { c with outgoing_queue :=
             dequeAppend 100 c.outgoing_queue ⟨x, 0, now⟩ }

/-- C6: enqueuing 105 messages through `_queue_message` while
disconnected leaves exactly the 100 most recently enqueued messages,
in FIFO order, the first 5 silently evicted oldest-first.  (Enqueueing
is a total function of the state — the producer is never blocked.) -/
theorem C6_bounded_queue_drops_oldest (c : MeshtasticClient)
    (l : List GameMessage) (now : Int)
    (hq : c.outgoing_queue = []) (hl : l.length = 105) :
    (queueMany c l now).outgoing_queue =
      (l.drop 5).map (fun m => ⟨m, 0, now⟩) := by
  rw [queueMany_outgoing, hq,
    foldl_dequeAppend_eq_lastN _ _ (by simp)]
  simp [lastN, hl, ← List.map_drop]

/-- C6 witness: the theorem applied to 105 concrete chat messages. -/
theorem C6_witness :
    (witClient.outgoing_queue = [] ∧ witMessages.length = 105) ∧
    (queueMany witClient witMessages 0).outgoing_queue =
      (witMessages.drop 5).map (fun m => ⟨m, 0, 0⟩) :=
  ⟨⟨rfl, rfl⟩,
   C6_bounded_queue_drops_oldest witClient witMessages 0 rfl rfl⟩

/-- Reading `assocGet` over an append tries the left list first. -/
theorem assocGet_append {α β : Type} [DecidableEq α]
    (l1 l2 : List (α × β)) (k : α) :
    assocGet (l1 ++ l2) k =
      match assocGet l1 k with
      | some v => some v
      | none => assocGet l2 k := by
  induction l1 with
  | nil => simp [assocGet]
  | cons p rest ih =>
    by_cases h : p.1 = k <;> simp [assocGet, h, ih]

/-- A key absent from a list is absent from any suffix of it. -/
theorem assocGet_drop_none {α β : Type} [DecidableEq α]
    (l : List (α × β)) (k : α) (i : Nat)
    (h : assocGet l k = none) : assocGet (l.drop i) k = none := by
  induction l generalizing i with
  | nil => simp [assocGet]
  | cons p rest ih =>
    cases i with
    | zero => simpa using h
    | succ j =>
      simp only [List.drop_succ_cons]
      apply ih
      by_cases hp : p.1 = k
      · simp [assocGet, hp] at h
      · simpa [assocGet, hp] using h

/-- After adding a fresh key to a cache of positive capacity, the key
is found with its insertion time. -/
theorem assocGet_add_fresh (c : LRUCache) (key : String) (now : Int)
    (hfresh : assocGet c.cache key = none) (hmax : 1 ≤ c.maxsize) :
    assocGet (c.add key now).cache key = some now := by
  unfold LRUCache.add
  rw [hfresh]
  simp only [lruEvict]
  by_cases h : c.maxsize < (c.cache ++ [(key, now)]).length
  · rw [if_pos h]
    have hk : (c.cache ++ [(key, now)]).length - c.maxsize ≤
        c.cache.length := by
      simp
      omega
    rw [List.drop_append_eq_append_drop]
    rw [assocGet_append]
    rw [assocGet_drop_none c.cache key _ hfresh]
    have h2 : (c.cache ++ [(key, now)]).length - c.maxsize -
        c.cache.length = 0 := by omega
    rw [h2]
    simp [assocGet]
  · rw [if_neg h]
    rw [assocGet_append, hfresh]
    simp [assocGet]

/-- C2: a `(sender, sequence)` key delivered twice — via any two
transports — within the TTL window produces exactly one dispatch to the
application callbacks: the first delivery is dispatched, the repeat is
discarded before dispatch, and `duplicate_count` ends at 1. -/
theorem C2_dedup_single_delivery (h : HybridTransport)
    (m : GameMessage) (srcA srcB : TransportType) (t1 t2 : Int)
    (hdup : h.duplicate_count = 0)
    (hfresh : assocGet h.seen_messages.cache
      (m.player_id ++ ":" ++ toString m.sequence) = none)
    (hmax : 1 ≤ h.seen_messages.maxsize)
    (httl : t2 - t1 ≤ h.seen_messages.ttl) :
    (h.handle_message m srcA t1).2 = [m] ∧
    ((h.handle_message m srcA t1).1.handle_message m srcB t2).2 = [] ∧
    ((h.handle_message m srcA t1).1.handle_message m srcB t2).1.duplicate_count
      = 1 := by
  have hc1 : (h.seen_messages.containsCheck
      (m.player_id ++ ":" ++ toString m.sequence) t1) =
      (false, h.seen_messages) := by
    unfold LRUCache.containsCheck
    rw [hfresh]
  have hget : assocGet ((h.seen_messages.add
      (m.player_id ++ ":" ++ toString m.sequence) t1).cache)
      (m.player_id ++ ":" ++ toString m.sequence) = some t1 :=
    assocGet_add_fresh _ _ _ hfresh hmax
  have hadd_ttl : (h.seen_messages.add
      (m.player_id ++ ":" ++ toString m.sequence) t1).ttl =
      h.seen_messages.ttl := by
    unfold LRUCache.add
    cases assocGet h.seen_messages.cache
      (m.player_id ++ ":" ++ toString m.sequence) <;> rfl
  have hc2 : ((h.seen_messages.add
      (m.player_id ++ ":" ++ toString m.sequence) t1).containsCheck
      (m.player_id ++ ":" ++ toString m.sequence) t2).1 = true := by
    unfold LRUCache.containsCheck
    rw [hget]
    have : ¬ ((h.seen_messages.add
        (m.player_id ++ ":" ++ toString m.sequence) t1).ttl < t2 - t1) := by
      rw [hadd_ttl]
      omega
    simp [this]
  simp only [HybridTransport.handle_message, hc1, hdup]
  simp only [Bool.false_eq_true, if_false]
  rw [hc2]
  simp

/-- C2 witness: the theorem at a concrete fresh manager, two
transports, and clocks 10 and 50 (within the 300s TTL). -/
theorem C2_witness :
    (witHybrid.duplicate_count = 0 ∧
     assocGet witHybrid.seen_messages.cache
       (witMsg.player_id ++ ":" ++ toString witMsg.sequence) = none ∧
     1 ≤ witHybrid.seen_messages.maxsize ∧
     (50 : Int) - 10 ≤ witHybrid.seen_messages.ttl) ∧
    (witHybrid.handle_message witMsg .MESHTASTIC_SERIAL 10).2 = [witMsg] ∧
    ((witHybrid.handle_message witMsg .MESHTASTIC_SERIAL 10).1.handle_message
      witMsg .MQTT 50).2 = [] ∧
    ((witHybrid.handle_message witMsg .MESHTASTIC_SERIAL 10).1.handle_message
      witMsg .MQTT 50).1.duplicate_count = 1 :=
  ⟨⟨rfl, rfl, by decide, by decide⟩,
   C2_dedup_single_delivery witHybrid witMsg .MESHTASTIC_SERIAL .MQTT
     10 50 rfl rfl (by decide) (by decide)⟩

/-- A key that does not occur in the key column is not found. -/
theorem assocGet_eq_none_of_not_mem {α β : Type} [DecidableEq α]
    (l : List (α × β)) (k : α) (h : k ∉ l.map Prod.fst) :
    assocGet l k = none := by
  induction l with
  | nil => rfl
  | cons p rest ih =>
    simp only [List.map_cons, List.mem_cons] at h
    push_neg at h
    have hp : ¬ p.1 = k := fun hh => h.1 hh.symm
    simp [assocGet, hp, ih h.2]

/-- Erasing a key from a cache with distinct keys removes it. -/
theorem assocGet_lruErase_self (l : List (String × Int)) (k : String)
    (hnd : (l.map Prod.fst).Nodup) :
    assocGet (lruErase l k) k = none := by
  induction l with
  | nil => rfl
  | cons p rest ih =>
    simp only [List.map_cons, List.nodup_cons] at hnd
    by_cases hp : p.1 = k
    · simp only [lruErase, hp, if_pos]
      exact assocGet_eq_none_of_not_mem rest k (hp ▸ hnd.1)
    · simp [lruErase, hp, assocGet, ih hnd.2]

/-- C7: a dedup entry whose insertion time lies more than TTL in the
past no longer suppresses its key: the membership check returns false
and deletes the expired entry, and a replayed message with that key is
dispatched as new with the duplicate counter untouched. -/
theorem C7_ttl_expiry_admits_replay (h : HybridTransport)
    (m : GameMessage) (src : TransportType) (now t0 : Int)
    (hkey : assocGet h.seen_messages.cache
      (m.player_id ++ ":" ++ toString m.sequence) = some t0)
    (hexp : h.seen_messages.ttl < now - t0)
    (hnd : (h.seen_messages.cache.map Prod.fst).Nodup) :
    (h.seen_messages.containsCheck
      (m.player_id ++ ":" ++ toString m.sequence) now).1 = false ∧
    assocGet (h.seen_messages.containsCheck
      (m.player_id ++ ":" ++ toString m.sequence) now).2.cache
      (m.player_id ++ ":" ++ toString m.sequence) = none ∧
    (h.handle_message m src now).2 = [m] ∧
    (h.handle_message m src now).1.duplicate_count = h.duplicate_count := by
  have hc : h.seen_messages.containsCheck
      (m.player_id ++ ":" ++ toString m.sequence) now =
      (false, { h.seen_messages with
        cache := (lruErase h.seen_messages.cache
          (m.player_id ++ ":" ++ toString m.sequence)) }) := by
    unfold LRUCache.containsCheck
    rw [hkey]
    exact if_pos hexp
  refine ⟨by rw [hc], ?_, ?_, ?_⟩
  · rw [hc]
    exact assocGet_lruErase_self _ _ hnd
  · simp [HybridTransport.handle_message, hc]
  · simp [HybridTransport.handle_message, hc]

/-- C7 witness: the theorem at a manager whose cache holds the key of
`witMsg` inserted at clock 0, replayed at clock 1000 (TTL 300). -/
theorem C7_witness :
    (assocGet witHybridStale.seen_messages.cache
       (witMsg.player_id ++ ":" ++ toString witMsg.sequence) = some 0 ∧
     witHybridStale.seen_messages.ttl < (1000 : Int) - 0 ∧
     (witHybridStale.seen_messages.cache.map Prod.fst).Nodup) ∧
    (witHybridStale.seen_messages.containsCheck
      (witMsg.player_id ++ ":" ++ toString witMsg.sequence) 1000).1 = false ∧
    assocGet (witHybridStale.seen_messages.containsCheck
      (witMsg.player_id ++ ":" ++ toString witMsg.sequence) 1000).2.cache
      (witMsg.player_id ++ ":" ++ toString witMsg.sequence) = none ∧
    (witHybridStale.handle_message witMsg .MQTT 1000).2 = [witMsg] ∧
    (witHybridStale.handle_message witMsg .MQTT 1000).1.duplicate_count =
      witHybridStale.duplicate_count :=
  ⟨⟨rfl, by decide, by decide⟩,
   C7_ttl_expiry_admits_replay witHybridStale witMsg .MQTT 1000 0
     rfl (by decide) (by decide)⟩

/-- C8: every malformed input (not valid structured data, or carrying
an unrecognized kind tag) makes `decode_message` signal a protocol
error, and the inbound handler treats this as non-fatal: the client
state is unchanged and no message callback is invoked. -/
theorem C8_malformed_input_dropped (inp : Option Json) (now : Int)
    (hm : MalformedInput inp) :
    (∃ e, decode_message inp now = .error e) ∧
    ∀ c : MeshtasticClient, c.handle_incoming inp now = (c, []) := by
  have hdec : ∃ e, decode_message inp now = .error e := by
    match inp with
    | none => exact ⟨.malformed, rfl⟩
    | some .null => exact ⟨.malformed, rfl⟩
    | some (.bool b) => exact ⟨.malformed, rfl⟩
    | some (.int n) => exact ⟨.malformed, rfl⟩
    | some (.str s) => exact ⟨.malformed, rfl⟩
    | some (.arr xs) => exact ⟨.malformed, rfl⟩
    | some (.obj kvs) =>
      refine ⟨.malformed, ?_⟩
      simp only [decode_message, GameMessage.from_compact]
      rcases hT : jsonGet kvs "t" with _ | v
      · simp [hT]
      · cases v with
        | str tag =>
          simp only [MalformedInput, hT] at hm
          simp [hT, hm]
        | null => simp [hT]
        | bool b => simp [hT]
        | int n => simp [hT]
        | arr xs => simp [hT]
        | obj kvs2 => simp [hT]
  obtain ⟨e, he⟩ := hdec
  refine ⟨⟨e, he⟩, fun c => ?_⟩
  simp [MeshtasticClient.handle_incoming, he]

/-- C8 witness: a JSON object with the unknown tag "ZZ" fails to
decode and leaves a concrete client untouched. -/
theorem C8_witness :
    MalformedInput (some (.obj [("t", .str "ZZ")])) ∧
    (∃ e, decode_message (some (.obj [("t", .str "ZZ")])) 5 = .error e) ∧
    witClient.handle_incoming (some (.obj [("t", .str "ZZ")])) 5 =
      (witClient, []) :=
  ⟨rfl,
   (C8_malformed_input_dropped (some (.obj [("t", .str "ZZ")])) 5 rfl).1,
   (C8_malformed_input_dropped (some (.obj [("t", .str "ZZ")])) 5 rfl).2
     witClient⟩

/-- C10: messages from the local instance's own id are filtered at the
public interface: the client's inbound handler leaves its state (in
particular the seen-sequence sets) unchanged and invokes no callbacks,
and the presence manager's `handle_message` leaves the roster unchanged
and fires no callbacks. -/
theorem C10_own_messages_filtered (c : MeshtasticClient)
    (inp : Option Json) (now : Int) (msg : GameMessage)
    (pm : PresenceManager) (m2 : GameMessage) (now2 : Int)
    (hdec : decode_message inp now = .ok msg)
    (hown : msg.player_id = c.player_id)
    (hloc : m2.player_id = pm.local_player_id) :
    c.handle_incoming inp now = (c, []) ∧
    pm.handle_message m2 now2 = (pm, []) := by
  constructor
  · simp [MeshtasticClient.handle_incoming, hdec, hown]
  · simp [PresenceManager.handle_message, hloc]

/-- C10 witness: `witMsg` (sender "abc123") decoded by the client whose
own id is "abc123", and handed to a presence manager whose local id is
"abc123". -/
theorem C10_witness :
    (decode_message (some (encode_message witMsg)) 5 =
       .ok { type := .PLAYER_MOVE, player_id := "abc123",
             data := .obj [("f", .int 1), ("r", .int 2)],
             sequence := 42, timestamp := 5 } ∧
     witMsg.player_id = witPresence.local_player_id) ∧
    witClient.handle_incoming (some (encode_message witMsg)) 5 =
      (witClient, []) ∧
    witPresence.handle_message witMsg 7 = (witPresence, []) :=
  ⟨⟨rfl, rfl⟩,
   C10_own_messages_filtered witClient (some (encode_message witMsg)) 5
     { type := .PLAYER_MOVE, player_id := "abc123",
       data := .obj [("f", .int 1), ("r", .int 2)],
       sequence := 42, timestamp := 5 }
     witPresence witMsg 7 rfl rfl rfl⟩

/-- C3 (counterexample): the claim that `send` walks every remaining
connected transport on failure — returning false only if none of the
connected transports succeed — is refuted: with the primary connected
but its `send` returning false, and MQTT connected with a succeeding
`send`, `HybridTransport.send` returns the primary's false without
trying MQTT. -/
theorem C3_counterexample_no_fallback_on_failed_send :
    witHybridAB.send = (false, some .MESHTASTIC_NATIVE) ∧
    assocGet witHybridAB.transports .MQTT =
      some { connected := true, sendOk := true } :=
  ⟨rfl, rfl⟩

/-- The fallback walk returns the first connected non-primary
transport's send result. -/
theorem fallbackWalk_first (ts : List (TransportType × TClient))
    (p : TransportType) (pre : List TransportType) (tt : TransportType)
    (post : List TransportType) (cl : TClient)
    (hpre : ∀ x ∈ pre, x ≠ p →
      ∀ cl0, assocGet ts x = some cl0 → cl0.connected = false)
    (htt : tt ≠ p) (hcl : assocGet ts tt = some cl)
    (hconn : cl.connected = true) :
    fallbackWalk ts p (pre ++ tt :: post) = (cl.sendOk, some tt) := by
  induction pre with
  | nil =>
    simp only [List.nil_append, fallbackWalk, if_neg htt, hcl, hconn]
    simp
  | cons x rest ih =>
    simp only [List.cons_append, fallbackWalk]
    by_cases hx : x = p
    · rw [if_pos hx]
      exact ih (fun y hy => hpre y (List.mem_cons_of_mem x hy))
    · rw [if_neg hx]
      cases hcl0 : assocGet ts x with
      | none =>
        exact ih (fun y hy => hpre y (List.mem_cons_of_mem x hy))
      | some cl0 =>
        have hc0 := hpre x (List.mem_cons_self x rest) hx cl0 hcl0
        have hih := ih (fun y hy => hpre y (List.mem_cons_of_mem x hy))
        simp only [hc0, Bool.false_eq_true, if_false]
        simpa using hih

/-- C3 (amended): `send` attempts the primary transport first; when the
primary's client is connected, its result is returned directly (a
failing primary send does not trigger the walk).  Only when the primary
is absent or not connected does the walk run, and it returns the result
of the first connected non-primary transport in priority order.  In
particular, in the A/B scenario — A (priority 0) primary but
disconnected, B (priority 1) connected and succeeding — the next send
succeeds via B. -/
theorem C3_send_amended (h : HybridTransport) :
    (∀ p cl, h.primary = some p → assocGet h.transports p = some cl →
      cl.connected = true → h.send = (cl.sendOk, some p)) ∧
    (∀ p pre tt post cl, h.primary = some p →
      (∀ cl0, assocGet h.transports p = some cl0 →
        cl0.connected = false) →
      h.enable_fallback = true →
      h.transport_priority = pre ++ tt :: post →
      tt ≠ p →
      (∀ x ∈ pre, x ≠ p →
        ∀ cl0, assocGet h.transports x = some cl0 →
          cl0.connected = false) →
      assocGet h.transports tt = some cl →
      cl.connected = true →
      h.send = (cl.sendOk, some tt)) := by
  constructor
  · intro p cl hp hcl hconn
    simp [HybridTransport.send, hp, hcl, hconn]
  · intro p pre tt post cl hp hdis hfb hprio htt hpre hcl hconn
    have hwalk : fallbackWalk h.transports p h.transport_priority =
        (cl.sendOk, some tt) := by
      rw [hprio]
      exact fallbackWalk_first h.transports p pre tt post cl hpre htt
        hcl hconn
    simp only [HybridTransport.send, hp]
    cases hcl0 : assocGet h.transports p with
    | none => simp [hcl0, hfb, hwalk]
    | some cl0 =>
      have := hdis cl0 hcl0
      simp [hcl0, this, hfb, hwalk]

/-- C3 witness: the failover scenario — primary A disconnected, B
connected — where the amended theorem yields a send that succeeds via
B. -/
theorem C3_witness :
    (witHybridFailover.primary = some .MESHTASTIC_NATIVE ∧
     witHybridFailover.transport_priority =
       [.MESHTASTIC_NATIVE] ++ .MESHTASTIC_SERIAL :: [.MQTT] ∧
     assocGet witHybridFailover.transports .MESHTASTIC_SERIAL =
       some { connected := true, sendOk := true }) ∧
    witHybridFailover.send = (true, some .MESHTASTIC_SERIAL) :=
  ⟨⟨rfl, rfl, rfl⟩,
   (C3_send_amended witHybridFailover).2 .MESHTASTIC_NATIVE
     [.MESHTASTIC_NATIVE] .MESHTASTIC_SERIAL [.MQTT]
     { connected := true, sendOk := true }
     rfl
     (fun cl0 hh => by
       have h2 := Option.some.inj hh
       rw [← h2])
     rfl rfl (by decide)
     (fun x hx hne cl0 hh => absurd (by simpa using hx) hne)
     rfl rfl⟩

/-- Writing a key into an association list makes it readable. -/
theorem assocGet_assocPut_self {α β : Type} [DecidableEq α]
    (l : List (α × β)) (k : α) (v : β) :
    assocGet (assocPut l k v) k = some v := by
  induction l with
  | nil => simp [assocPut, assocGet]
  | cons p rest ih =>
    by_cases hp : p.1 = k
    · simp [assocPut, assocGet, hp]
    · simp [assocPut, assocGet, hp, ih]

/-- C4 (counterexample): the claim that every move/heartbeat/action/chat
from an unknown sender synthesizes a roster entry is refuted: a
heartbeat from the unknown sender "zzz999" leaves the roster unchanged
and fires nothing — the event is discarded. -/
theorem C4_counterexample_heartbeat_unknown_discarded :
    witHB.type = .HEARTBEAT ∧
    witHB.player_id ≠ witPresence.local_player_id ∧
    assocGet witPresence.players witHB.player_id = none ∧
    witPresence.handle_message witHB 5 = (witPresence, []) :=
  ⟨rfl, by decide, rfl, rfl⟩

/-- C4 (amended): for a sender other than the local player —
move from an unknown sender synthesizes a roster entry whose display
name is the sender id; heartbeat and action from an unknown sender are
discarded (no entry, no callback); chat from an unknown sender fires
the chat callback with a temporary placeholder-named entry that is not
stored in the roster; and for known senders all four types refresh the
entry's `last_seen`. -/
theorem C4_presence_amended (pm : PresenceManager) (msg : GameMessage)
    (now : Int) (hne : msg.player_id ≠ pm.local_player_id) :
    (msg.type = .PLAYER_MOVE → assocGet pm.players msg.player_id = none →
      assocGet (pm.handle_message msg now).1.players msg.player_id =
        some { player_id := msg.player_id, name := msg.player_id,
               room_id := (ROOM_NAMES_get
                 (dataGetInt msg.data "r" 0)).getD "whous",
               last_seen := now }) ∧
    (msg.type = .HEARTBEAT → assocGet pm.players msg.player_id = none →
      pm.handle_message msg now = (pm, [])) ∧
    (msg.type = .PLAYER_ACTION → assocGet pm.players msg.player_id = none →
      pm.handle_message msg now = (pm, [])) ∧
    ((msg.type = .CHAT ∨ msg.type = .TEAM_CHAT) →
      assocGet pm.players msg.player_id = none →
      (pm.handle_message msg now).1 = pm ∧
      ∃ p b, (pm.handle_message msg now).2 =
          [.chat p (dataGetStr msg.data "m" "") b] ∧
        p.player_id = msg.player_id ∧ p.name = msg.player_id) ∧
    (∀ p, assocGet pm.players msg.player_id = some p →
      (msg.type = .PLAYER_MOVE ∨ msg.type = .HEARTBEAT ∨
       msg.type = .PLAYER_ACTION ∨ msg.type = .CHAT ∨
       msg.type = .TEAM_CHAT) →
      ∃ p2, assocGet (pm.handle_message msg now).1.players
          msg.player_id = some p2 ∧ p2.last_seen = now) := by
  refine ⟨?_, ?_, ?_, ?_, ?_⟩
  · intro ht hu
    simp [PresenceManager.handle_message, hne, ht,
      PresenceManager.handle_move, hu, assocGet_assocPut_self]
  · intro ht hu
    simp [PresenceManager.handle_message, hne, ht,
      PresenceManager.handle_heartbeat, hu]
  · intro ht hu
    simp [PresenceManager.handle_message, hne, ht,
      PresenceManager.handle_action, hu]
  · intro ht hu
    rcases ht with h1 | h1
    · refine ⟨by simp [PresenceManager.handle_message, hne, h1,
          PresenceManager.handle_chat, hu],
        ⟨{ player_id := msg.player_id, name := msg.player_id,
           room_id := (ROOM_NAMES_get (dataGetInt msg.data "r" 0)).getD "",
           last_seen := now }, false, ?_, rfl, rfl⟩⟩
      simp [PresenceManager.handle_message, hne, h1,
        PresenceManager.handle_chat, hu]
    · refine ⟨by simp [PresenceManager.handle_message, hne, h1,
          PresenceManager.handle_chat, hu],
        ⟨{ player_id := msg.player_id, name := msg.player_id,
           room_id := (ROOM_NAMES_get (dataGetInt msg.data "r" 0)).getD "",
           last_seen := now }, true, ?_, rfl, rfl⟩⟩
      simp [PresenceManager.handle_message, hne, h1,
        PresenceManager.handle_chat, hu]
  · intro p hp ht
    rcases ht with h1 | h1 | h1 | h1 | h1
    · exact ⟨{ p with room_id := (ROOM_NAMES_get
          (dataGetInt msg.data "r" 0)).getD "whous", last_seen := now },
        by simp [PresenceManager.handle_message, hne, h1,
          PresenceManager.handle_move, hp, assocGet_assocPut_self], rfl⟩
    · exact ⟨{ p with room_id := (ROOM_NAMES_get
          (dataGetInt msg.data "r" 0)).getD "whous", last_seen := now },
        by simp [PresenceManager.handle_message, hne, h1,
          PresenceManager.handle_heartbeat, hp, assocGet_assocPut_self],
        rfl⟩
    · exact ⟨{ p with last_seen := now },
        by simp [PresenceManager.handle_message, hne, h1,
          PresenceManager.handle_action, hp, assocGet_assocPut_self],
        rfl⟩
    · exact ⟨{ p with last_seen := now },
        by simp [PresenceManager.handle_message, hne, h1,
          PresenceManager.handle_chat, hp, assocGet_assocPut_self],
        rfl⟩
    · exact ⟨{ p with last_seen := now },
        by simp [PresenceManager.handle_message, hne, h1,
          PresenceManager.handle_chat, hp, assocGet_assocPut_self],
        rfl⟩

/-- C4 witness: a move from the unknown sender "zzz999" at clock 5
synthesizes the placeholder entry (amended part applied at a concrete
state). -/
theorem C4_witness :
    (witMove.type = .PLAYER_MOVE ∧
     witMove.player_id ≠ witPresence.local_player_id ∧
     assocGet witPresence.players witMove.player_id = none) ∧
    assocGet (witPresence.handle_message witMove 5).1.players
        witMove.player_id =
      some { player_id := witMove.player_id, name := witMove.player_id,
             room_id := (ROOM_NAMES_get
               (dataGetInt witMove.data "r" 0)).getD "whous",
             last_seen := 5 } :=
  ⟨⟨rfl, by decide, rfl⟩,
   (C4_presence_amended witPresence witMove 5 (by decide)).1 rfl rfl⟩

/-- The flush loop splits the queue, in FIFO order, into the
successfully transmitted prefix, the (at most one) dropped entry, and
the untouched suffix. -/
theorem flushLoop_decomp (q : List QueuedMessage) (f : Nat → Bool) :
    q.map QueuedMessage.message =
      (flushLoop q f).2.1.map QueuedMessage.message ++
      (flushLoop q f).2.2.map QueuedMessage.message ++
      (flushLoop q f).1.map QueuedMessage.message := by
  induction q generalizing f with
  | nil => rfl
  | cons m rest ih =>
    by_cases h0 : f 0
    · simpa [flushLoop, h0] using ih (fun n => f (n + 1))
    · by_cases h3 : 3 ≤ m.attempts + 1
      · simp [flushLoop, h0, h3]
      · simp [flushLoop, h0, h3]

/-- Every entry the flush loop drops has just reached the retry
ceiling of 3 attempts. -/
theorem flushLoop_dropped_at_ceiling (q : List QueuedMessage)
    (f : Nat → Bool) (hinv : ∀ x ∈ q, x.attempts ≤ 2) :
    ∀ x ∈ (flushLoop q f).2.2, x.attempts = 3 := by
  induction q generalizing f with
  | nil => simp [flushLoop]
  | cons m rest ih =>
    intro x hx
    by_cases h0 : f 0
    · simp only [flushLoop, h0, if_pos] at hx
      exact ih (fun n => f (n + 1))
        (fun y hy => hinv y (List.mem_cons_of_mem m hy)) x hx
    · by_cases h3 : 3 ≤ m.attempts + 1
      · simp only [flushLoop, h0, Bool.false_eq_true, if_false,
          if_pos h3, List.mem_singleton] at hx
        have hm := hinv m (List.mem_cons_self m rest)
        subst hx
        simp
        omega
      · simp [flushLoop, h0, h3] at hx

/-- Every entry the flush loop leaves queued is still below the retry
ceiling. -/
theorem flushLoop_remaining_le (q : List QueuedMessage)
    (f : Nat → Bool) (hinv : ∀ x ∈ q, x.attempts ≤ 2) :
    ∀ x ∈ (flushLoop q f).1, x.attempts ≤ 2 := by
  induction q generalizing f with
  | nil => simp [flushLoop]
  | cons m rest ih =>
    intro x hx
    by_cases h0 : f 0
    · simp only [flushLoop, h0, if_pos] at hx
      exact ih (fun n => f (n + 1))
        (fun y hy => hinv y (List.mem_cons_of_mem m hy)) x hx
    · by_cases h3 : 3 ≤ m.attempts + 1
      · simp only [flushLoop, h0, Bool.false_eq_true, if_false,
          if_pos h3] at hx
        exact hinv x (List.mem_cons_of_mem m hx)
      · simp only [flushLoop, h0, Bool.false_eq_true, if_false,
          if_neg h3, List.mem_cons] at hx
        rcases hx with hx | hx
        · subst hx
          simp
          omega
        · exact hinv x (List.mem_cons_of_mem m hx)

/-- C9: `_flush_queue` on a Connected client transmits queued messages
in FIFO order; the original queue splits, in order, into the
successfully transmitted prefix, the dropped entries (each of which has
just reached the fixed retry ceiling of 3 attempts), and the remaining
suffix, whose entries all stay strictly below the ceiling — so no
message is ever attempted more than 3 times. -/
theorem C9_flush_fifo_and_retry_ceiling (c : MeshtasticClient)
    (f : Nat → Bool) (hconn : c.state = ConnectionState.CONNECTED)
    (hinv : ∀ x ∈ c.outgoing_queue, x.attempts ≤ 2) :
    c.outgoing_queue.map QueuedMessage.message =
      (c.flush_queue f).2.1.map QueuedMessage.message ++
      (c.flush_queue f).2.2.map QueuedMessage.message ++
      (c.flush_queue f).1.outgoing_queue.map QueuedMessage.message ∧
    (∀ x ∈ (c.flush_queue f).2.2, x.attempts = 3) ∧
    (∀ x ∈ (c.flush_queue f).1.outgoing_queue, x.attempts ≤ 2) ∧
    (c.flush_queue f).1.sent = c.sent ++
      (c.flush_queue f).2.1.map (fun q => encode_message q.message) := by
  have hd := flushLoop_decomp c.outgoing_queue f
  have h1 := flushLoop_dropped_at_ceiling c.outgoing_queue f hinv
  have h2 := flushLoop_remaining_le c.outgoing_queue f hinv
  simp only [MeshtasticClient.flush_queue, if_pos hconn]
  exact ⟨hd, h1, h2, trivial⟩

/-- C9 witness: a connected client whose head entry has 2 failed
attempts; with the raw link still failing, the flush drops the head at
its third attempt and keeps the rest. -/
theorem C9_witness :
    (witClientFlush.state = ConnectionState.CONNECTED ∧
     ∀ x ∈ witClientFlush.outgoing_queue, x.attempts ≤ 2) ∧
    witClientFlush.outgoing_queue.map QueuedMessage.message =
      (witClientFlush.flush_queue (fun _ => false)).2.1.map
        QueuedMessage.message ++
      (witClientFlush.flush_queue (fun _ => false)).2.2.map
        QueuedMessage.message ++
      (witClientFlush.flush_queue
        (fun _ => false)).1.outgoing_queue.map QueuedMessage.message ∧
    (∀ x ∈ (witClientFlush.flush_queue (fun _ => false)).2.2,
      x.attempts = 3) ∧
    (∀ x ∈ (witClientFlush.flush_queue (fun _ => false)).1.outgoing_queue,
      x.attempts ≤ 2) ∧
    (witClientFlush.flush_queue (fun _ => false)).1.sent =
      witClientFlush.sent ++
      (witClientFlush.flush_queue (fun _ => false)).2.1.map
        (fun q => encode_message q.message) :=
  ⟨⟨rfl, by decide⟩,
   C9_flush_fifo_and_retry_ceiling witClientFlush (fun _ => false)
     rfl (by decide)⟩

end MeshZork
